import Mathlib

/-!
Shallow embedding of the Flappy Dragon game (`src/main.rs`) and verification
of the frozen claims about it.

Modelling conventions:
* Rust `f32` fields (`y`, `velocity`, `frame_time`, elapsed milliseconds) are
  modelled as exact rationals `ℚ`; the program only ever combines the literals
  `0.2`, `1.0`, `2.0`, `25.0`, `75.0` by addition and comparison, which the
  rational model reflects faithfully up to floating-point rounding.
* Rust `i32` fields are modelled as `ℤ` (no reachable value approaches the
  `i32` range in this program).
* The Rust cast `f32 as i32` truncates toward zero; `f32toI32` below models
  that truncation (the additional saturation at the `i32` bounds is never
  reached in the screen-coordinate ranges of this program).
* `RandomNumberGenerator::range(10, 40)` in `Obstacle::new` is a random draw;
  it is modelled as an explicit oracle parameter `gap` supplied to
  `Obstacle.new`.
* The rendering and terminal-input collaborator (`BTerm`) is out of scope per
  the spec; a tick consumes from it the elapsed milliseconds and the optional
  key press, which are modelled as explicit arguments. The `Q` key only sets
  the engine flag `ctx.quitting` and leaves the game state unchanged, so it
  is modelled as leaving the state unchanged.
-/

namespace FlappyDragon

/-- Constant `SCREEN_WIDTH : i32 = 80` (src/main.rs line 12). -/
def SCREEN_WIDTH : Int := 80

/-- Constant `SCREEN_HEIGHT : i32 = 50` (src/main.rs line 13). -/
def SCREEN_HEIGHT : Int := 50

/-- Constant `FRAME_DURATION : f32 = 75.0` milliseconds (src/main.rs line 14). -/
def FRAME_DURATION : ℚ := 75

/-- Constant `TERMINAL_VELOCITY : f32 = 2.0` (src/main.rs line 15). -/
def TERMINAL_VELOCITY : ℚ := 2

/-- Constant `GRAVITY : f32 = 0.2` (src/main.rs line 16). -/
def GRAVITY : ℚ := 0.2

/-- Constant `FLAP_STRENGTH : f32 = 1.0` (src/main.rs line 17). -/
def FLAP_STRENGTH : ℚ := 1

/-- Rust `q as i32` for a finite `f32` value: truncation toward zero. -/
def f32toI32 (q : ℚ) : Int := if 0 ≤ q then ⌊q⌋ else ⌈q⌉

/-- The `GameMode` enum (src/main.rs lines 5-9). -/
inductive GameMode
  | Menu
  | Playing
  | End
deriving DecidableEq, Repr

/-- The subset of `VirtualKeyCode` values the game inspects: `Space` (flap),
`P` (play / restart), `Q` (quit) and a stand-in for every other key. -/
inductive Key
  | Space
  | P
  | Q
  | Other
deriving DecidableEq, Repr

/-- The `Obstacle` struct (src/main.rs lines 19-23). -/
structure Obstacle where
  x : Int
  gap_y : Int
  size : Int
deriving DecidableEq, Repr

/-- The `Player` struct (src/main.rs lines 64-68). -/
structure Player where
  x : Int
  y : ℚ
  velocity : ℚ
deriving DecidableEq, Repr

/-- Source `Obstacle::new(x, score)` (src/main.rs lines 26-33): `gap_y` is drawn by
`random.range(10, 40)`, modelled by the oracle parameter `gap`; `size` is
`i32::max(2, 20 - score)`. -/
def Obstacle.new (x : Int) (score : Int) (gap : Int) : Obstacle :=
  { x := x, gap_y := gap, size := max 2 (20 - score) }

/-- Source `Obstacle::hit_obstacle(&self, player)` (src/main.rs lines 52-60).
`self.size / 2` is Rust `i32` division, which truncates toward zero
(`Int.tdiv`); `player.y as i32` is `f32toI32`. -/
def Obstacle.hit_obstacle (o : Obstacle) (p : Player) : Bool :=
  let half_size := Int.tdiv o.size 2
  let does_x_match := p.x == o.x
  let player_above_gap := decide (f32toI32 p.y < o.gap_y - half_size)
  let player_below_gap := decide (f32toI32 p.y > o.gap_y + half_size)
  does_x_match && (player_above_gap || player_below_gap)

/-- Source `Player::new(x, y)` (src/main.rs lines 71-77): `y` is converted
`i32 -> f32`, `velocity` starts at `0.0`. -/
def Player.new (x : Int) (y : Int) : Player :=
  { x := x, y := (y : ℚ), velocity := 0 }

/-- Source `Player::gravity_and_move(&mut self)` (src/main.rs lines 85-99):
if `velocity < TERMINAL_VELOCITY` add `GRAVITY` to it (no clamp after the
addition); then `y += velocity` (the already-updated velocity), `x += 1`,
and finally clamp `y` below at `0.0`. -/
def Player.gravity_and_move (p : Player) : Player :=
  let velocity := if p.velocity < TERMINAL_VELOCITY then p.velocity + GRAVITY else p.velocity
  let y := p.y + velocity
  let x := p.x + 1
  let yClamped := if y < 0 then 0 else y
  { x := x, y := yClamped, velocity := velocity }

/-- Source `Player::flap(&mut self)` (src/main.rs lines 101-103):
`velocity = -FLAP_STRENGTH`, unconditionally. -/
def Player.flap (p : Player) : Player :=
  { p with velocity := -FLAP_STRENGTH }

/-- The `State` struct (src/main.rs lines 107-113). -/
structure State where
  mode : GameMode
  player : Player
  frame_time : ℚ
  score : Int
  obstacle : Obstacle
deriving DecidableEq, Repr

/-- Source `State::new()` (src/main.rs lines 117-125), with the random
`gap_y` supplied as the oracle `gap`. -/
def State.new (gap : Int) : State :=
  { mode := GameMode.Menu
    frame_time := 0
    player := Player.new 5 25
    obstacle := Obstacle.new SCREEN_WIDTH 0 gap
    score := 0 }

/-- Source `State::restart(&mut self)` (src/main.rs lines 127-134): sets
`player.x = 5`, `player.y = 25.0`, `frame_time = 0.0`, `mode = Playing`,
a fresh obstacle at `SCREEN_WIDTH` with score `0`, and `score = 0`.
Note the source does NOT touch `player.velocity`. -/
def State.restart (s : State) (gap : Int) : State :=
  { s with
    player := { s.player with x := 5, y := 25 }
    frame_time := 0
    mode := GameMode.Playing
    obstacle := Obstacle.new SCREEN_WIDTH 0 gap
    score := 0 }

/-- Source `State::main_menu` (src/main.rs lines 136-154), stripped of the drawing
calls: `P` restarts, `Q` only sets `ctx.quitting`, other keys do nothing. -/
def State.main_menu (s : State) (key : Option Key) (gap : Int) : State :=
  match key with
  | some Key.P => s.restart gap
  | _ => s

/-- Source `State::dead` (src/main.rs lines 156-171), stripped of the drawing calls:
`P` restarts, `Q` only sets `ctx.quitting`, other keys do nothing. -/
def State.dead (s : State) (key : Option Key) (gap : Int) : State :=
  match key with
  | some Key.P => s.restart gap
  | _ => s

/-- First stage of `State::play` (src/main.rs lines 179-187): add the elapsed
milliseconds to `frame_time`; if the sum exceeds `FRAME_DURATION`, reset
`frame_time` to `0.0` and run one `gravity_and_move` step. -/
def State.playPhysics (s : State) (elapsed : ℚ) : State :=
  let ft := s.frame_time + elapsed
  if ft > FRAME_DURATION then
    { s with frame_time := 0, player := s.player.gravity_and_move }
  else
    { s with frame_time := ft }

/-- Second stage of `State::play` (src/main.rs lines 190-192): a `Space`
press flaps, any other (or no) key does nothing. -/
def State.playInput (s : State) (key : Option Key) : State :=
  if key = some Key.Space then { s with player := s.player.flap } else s

/-- Third stage of `State::play` (src/main.rs lines 202-205): if
`player.x > obstacle.x`, increment the score and replace the obstacle with
`Obstacle::new(player.x + SCREEN_WIDTH, score)` built from the incremented
score (its random `gap_y` is the oracle `gap`). -/
def State.playScore (s : State) (gap : Int) : State :=
  if s.player.x > s.obstacle.x then
    { s with
      score := s.score + 1
      obstacle := Obstacle.new (s.player.x + SCREEN_WIDTH) (s.score + 1) gap }
  else s

/-- Fourth stage of `State::play` (src/main.rs lines 208-211): if
`(player.y as i32) > SCREEN_HEIGHT` or the obstacle hits the player, the mode
becomes `End`. -/
def State.playEndCheck (s : State) : State :=
  if decide (f32toI32 s.player.y > SCREEN_HEIGHT) || s.obstacle.hit_obstacle s.player then
    { s with mode := GameMode.End }
  else s

/-- Source `State::play(&mut self, ctx)` (src/main.rs lines 173-212), stripped of
the drawing calls, decomposed into its four state-changing stages in source
order: frame-time/physics, flap input, score/obstacle advance, end check. -/
def State.play (s : State) (elapsed : ℚ) (key : Option Key) (gap : Int) : State :=
  (((s.playPhysics elapsed).playInput key).playScore gap).playEndCheck

/-- Source `State::tick` (src/main.rs lines 218-229): dispatch on the current mode. -/
def State.tick (s : State) (elapsed : ℚ) (key : Option Key) (gap : Int) : State :=
  match s.mode with
  | GameMode.Menu => s.main_menu key gap
  | GameMode.End => s.dead key gap
  | GameMode.Playing => s.play elapsed key gap

/-- The players reachable from the initial player (`Player::new(5, 25)`,
velocity `0`) by any sequence of physics steps and flaps. -/
inductive ReachablePlayer : Player → Prop
  | init : ReachablePlayer (Player.new 5 25)
  | gravity (p : Player) : ReachablePlayer p → ReachablePlayer p.gravity_and_move
  | flap (p : Player) : ReachablePlayer p → ReachablePlayer p.flap

/-- A concrete pre-state used to evaluate `State::restart`: the game has just
ended with score 7, the player at world-x 47, height 12, falling at the
terminal velocity 2. -/
def restartProbe : State :=
  State.mk GameMode.End (Player.mk 47 12 2) 30 7 (Obstacle.mk 40 20 13)

/-! ## Stage bookkeeping lemmas

Each stage of `State::play` touches only some fields; these lemmas record the
fields it leaves alone. -/

theorem playPhysics_mode (s : State) (e : ℚ) : (s.playPhysics e).mode = s.mode := by
  unfold State.playPhysics; simp only; split <;> rfl

theorem playPhysics_score (s : State) (e : ℚ) : (s.playPhysics e).score = s.score := by
  unfold State.playPhysics; simp only; split <;> rfl

theorem playPhysics_obstacle (s : State) (e : ℚ) : (s.playPhysics e).obstacle = s.obstacle := by
  unfold State.playPhysics; simp only; split <;> rfl

theorem playInput_mode (s : State) (k : Option Key) : (s.playInput k).mode = s.mode := by
  unfold State.playInput; split <;> rfl

theorem playInput_score (s : State) (k : Option Key) : (s.playInput k).score = s.score := by
  unfold State.playInput; split <;> rfl

theorem playInput_obstacle (s : State) (k : Option Key) : (s.playInput k).obstacle = s.obstacle := by
  unfold State.playInput; split <;> rfl

theorem playInput_frame_time (s : State) (k : Option Key) :
    (s.playInput k).frame_time = s.frame_time := by
  unfold State.playInput; split <;> rfl

theorem playScore_mode (s : State) (g : Int) : (s.playScore g).mode = s.mode := by
  unfold State.playScore; split <;> rfl

theorem playScore_player (s : State) (g : Int) : (s.playScore g).player = s.player := by
  unfold State.playScore; split <;> rfl

theorem playScore_frame_time (s : State) (g : Int) :
    (s.playScore g).frame_time = s.frame_time := by
  unfold State.playScore; split <;> rfl

theorem playEndCheck_score (s : State) : s.playEndCheck.score = s.score := by
  unfold State.playEndCheck; split <;> rfl

theorem playEndCheck_obstacle (s : State) : s.playEndCheck.obstacle = s.obstacle := by
  unfold State.playEndCheck; split <;> rfl

theorem playEndCheck_frame_time (s : State) : s.playEndCheck.frame_time = s.frame_time := by
  unfold State.playEndCheck; split <;> rfl

/-- Lemma: `playEndCheck` from a `Playing` state: the mode becomes `End` exactly when
the player has fallen past the screen height or collides with the obstacle,
and stays `Playing` exactly otherwise. -/
theorem playEndCheck_mode_iff (s : State) (h : s.mode = GameMode.Playing) :
    (s.playEndCheck.mode = GameMode.End ↔
      (f32toI32 s.player.y > SCREEN_HEIGHT ∨ s.obstacle.hit_obstacle s.player = true)) ∧
    (s.playEndCheck.mode = GameMode.Playing ↔
      ¬ (f32toI32 s.player.y > SCREEN_HEIGHT ∨ s.obstacle.hit_obstacle s.player = true)) := by
  unfold State.playEndCheck
  rcases hb : (decide (f32toI32 s.player.y > SCREEN_HEIGHT) || s.obstacle.hit_obstacle s.player)
  · simp only [Bool.or_eq_false_iff, decide_eq_false_iff_not] at hb
    simp [h, hb.1, hb.2]
  · simp only [Bool.or_eq_true, decide_eq_true_eq] at hb
    simp [h, hb]

/-! ## The claims -/

/-- C1, counterexample: the claim says `y` increases by the PRE-tick velocity.
At the player `(x 5, y 25, velocity 0)` the pre-tick velocity is `0`, so the
claim predicts `y = 25` after the step; the source updates the velocity first
and then adds the updated velocity, giving `y = 25.2`. -/
theorem C1_counterexample :
    (Player.mk 5 25 0).velocity < 2 ∧
    ((Player.mk 5 25 0).gravity_and_move).y ≠
      (Player.mk 5 25 0).y + (Player.mk 5 25 0).velocity := by
  norm_num [Player.gravity_and_move, TERMINAL_VELOCITY, GRAVITY]

/-- C1 (amended): for every physics step with pre-state velocity `< 2.0`, the
post-state velocity equals the pre-state velocity plus `0.2` (the cap is
enforced only by the pre-check, with no clamp after the addition), and `y`
increases by the POST-tick velocity — pre-velocity plus `0.2` — with the
result clamped below at `0`. -/
theorem C1_gravity_step (p : Player) (h : p.velocity < 2) :
    (p.gravity_and_move).velocity = p.velocity + 0.2 ∧
    (p.gravity_and_move).y =
      if p.y + (p.velocity + 0.2) < 0 then 0 else p.y + (p.velocity + 0.2) := by
  simp [Player.gravity_and_move, TERMINAL_VELOCITY, GRAVITY, if_pos h]

/-- C1 witness: the amended statement instantiated at the player
`(x 5, y 25, velocity 0)`. -/
theorem C1_gravity_step_witness :
    (Player.mk 5 25 0).velocity < 2 ∧
    (((Player.mk 5 25 0).gravity_and_move).velocity = (Player.mk 5 25 0).velocity + 0.2 ∧
     ((Player.mk 5 25 0).gravity_and_move).y =
       if (Player.mk 5 25 0).y + ((Player.mk 5 25 0).velocity + 0.2) < 0 then 0
       else (Player.mk 5 25 0).y + ((Player.mk 5 25 0).velocity + 0.2)) :=
  ⟨by decide, C1_gravity_step (Player.mk 5 25 0) (by decide)⟩

/-- C2: `State::restart` does reset `player.x`, `player.y`, `score`,
`frame_time`, the mode and the obstacle as claimed, but — contrary to the
claim and to its own comment, reset to initial state — it leaves
`player.velocity` untouched: evaluated on `restartProbe`, whose velocity is
`2`, the restarted state keeps velocity `2` instead of `0`. -/
theorem C2_restart_keeps_velocity :
    ((restartProbe.restart 25).player.velocity = 2 ∧
     ¬ (restartProbe.restart 25).player.velocity = 0) ∧
    (restartProbe.restart 25).player.x = 5 ∧
    (restartProbe.restart 25).player.y = 25 ∧
    (restartProbe.restart 25).score = 0 ∧
    (restartProbe.restart 25).frame_time = 0 ∧
    (restartProbe.restart 25).mode = GameMode.Playing ∧
    (restartProbe.restart 25).obstacle = Obstacle.new SCREEN_WIDTH 0 25 ∧
    (Obstacle.new SCREEN_WIDTH 0 25).x = 80 ∧
    (Obstacle.new SCREEN_WIDTH 0 25).size = max 2 (20 - 0) := by
  decide

/-- C3: `hit_obstacle` returns `true` iff the world-x of the player equals the
world-x of the obstacle and the `y` of the player, truncated to an integer, is strictly
less than `gap_y - size/2` or strictly greater than `gap_y + size/2`
(truncating integer division); in particular the two boundary rows
`gap_y - size/2` and `gap_y + size/2` themselves are passable. -/
theorem C3_hit_iff (o : Obstacle) (p : Player) :
    o.hit_obstacle p = true ↔
      p.x = o.x ∧
        (f32toI32 p.y < o.gap_y - Int.tdiv o.size 2 ∨
         f32toI32 p.y > o.gap_y + Int.tdiv o.size 2) := by
  simp [Obstacle.hit_obstacle]

/-- C7: for every score `s ≥ 0` (and any position and random gap), the
constructed obstacle has size `max(2, 20 - s)`; the size is non-increasing
as the score grows and never drops below `2`. -/
theorem C7_obstacle_size (x gap s1 s2 : Int) (h0 : 0 ≤ s1) (h12 : s1 ≤ s2) :
    (Obstacle.new x s1 gap).size = max 2 (20 - s1) ∧
    (Obstacle.new x s2 gap).size ≤ (Obstacle.new x s1 gap).size ∧
    2 ≤ (Obstacle.new x s1 gap).size := by
  unfold Obstacle.new
  refine ⟨rfl, ?_, ?_⟩ <;> simp only <;> omega

/-- C7 witness: instantiated at scores `3 ≤ 19`. -/
theorem C7_obstacle_size_witness :
    (0 : Int) ≤ 3 ∧ (3 : Int) ≤ 19 ∧
    ((Obstacle.new 80 3 25).size = max 2 (20 - 3) ∧
     (Obstacle.new 80 19 25).size ≤ (Obstacle.new 80 3 25).size ∧
     2 ≤ (Obstacle.new 80 3 25).size) :=
  ⟨by decide, by decide, C7_obstacle_size 80 25 3 19 (by decide) (by decide)⟩

/-- C8: for every pre-state of the player — any `y`, any velocity — the
field `y` of the player is non-negative after `gravity_and_move`, thanks to the final
clamp at `0`. -/
theorem C8_y_nonneg (p : Player) : 0 ≤ (p.gravity_and_move).y := by
  unfold Player.gravity_and_move
  simp only
  split
  all_goals split
  any_goals exact le_refl 0
  all_goals rename_i hy
  all_goals exact le_of_not_lt hy

/-- C9: `flap` sets the velocity to exactly `-1.0` regardless of the prior
velocity, and changes neither `x` nor `y`. -/
theorem C9_flap_sets_velocity (p : Player) :
    (p.flap).velocity = -1 ∧ (p.flap).x = p.x ∧ (p.flap).y = p.y := by
  unfold Player.flap FLAP_STRENGTH
  exact ⟨rfl, rfl, rfl⟩

/-- C10: every player reachable from the initial player (velocity `0`) by any
sequence of physics steps and flaps has velocity at most
`TERMINAL_VELOCITY + GRAVITY = 2.2`: gravity is added only when the velocity
is strictly below `2.0`, and a flap resets the velocity to `-1.0`. -/
theorem C10_velocity_bounded (p : Player) (h : ReachablePlayer p) :
    p.velocity ≤ TERMINAL_VELOCITY + GRAVITY := by
  induction h with
  | init => norm_num [Player.new, TERMINAL_VELOCITY, GRAVITY]
  | gravity q hq ih =>
      unfold Player.gravity_and_move
      simp only
      split
      · rename_i hlt
        exact add_le_add_right (le_of_lt hlt) GRAVITY
      · exact ih
  | flap q hq ih =>
      unfold Player.flap FLAP_STRENGTH TERMINAL_VELOCITY GRAVITY
      norm_num

/-- C10 witness: the bound applied to the initial player. -/
theorem C10_velocity_bounded_witness :
    (Player.new 5 25).velocity ≤ TERMINAL_VELOCITY + GRAVITY :=
  C10_velocity_bounded (Player.new 5 25) ReachablePlayer.init

/-- C4: from a `Playing` state, one `tick` moves the mode to `End` if and
only if the post-step player (after the optional physics step and the
optional flap) has integer-truncated `y` above `SCREEN_HEIGHT = 50`, or the
collision test of the (possibly just replaced) obstacle against that player
is true; under no other condition does a `Playing` tick change the mode —
otherwise it stays `Playing`. -/
theorem C4_end_transition (s : State) (elapsed : ℚ) (key : Option Key) (gap : Int)
    (hmode : s.mode = GameMode.Playing) :
    ((s.tick elapsed key gap).mode = GameMode.End ↔
       (f32toI32 ((s.playPhysics elapsed).playInput key).player.y > SCREEN_HEIGHT ∨
        (((s.playPhysics elapsed).playInput key).playScore gap).obstacle.hit_obstacle
          ((s.playPhysics elapsed).playInput key).player = true)) ∧
    ((s.tick elapsed key gap).mode = GameMode.Playing ↔
       ¬ (f32toI32 ((s.playPhysics elapsed).playInput key).player.y > SCREEN_HEIGHT ∨
          (((s.playPhysics elapsed).playInput key).playScore gap).obstacle.hit_obstacle
            ((s.playPhysics elapsed).playInput key).player = true)) := by
  have hmode2 : (((s.playPhysics elapsed).playInput key).playScore gap).mode
      = GameMode.Playing := by
    rw [playScore_mode, playInput_mode, playPhysics_mode, hmode]
  have hplayer : (((s.playPhysics elapsed).playInput key).playScore gap).player
      = ((s.playPhysics elapsed).playInput key).player :=
    playScore_player _ _
  have hiff := playEndCheck_mode_iff (((s.playPhysics elapsed).playInput key).playScore gap) hmode2
  rw [hplayer] at hiff
  have htick : s.tick elapsed key gap
      = (((s.playPhysics elapsed).playInput key).playScore gap).playEndCheck := by
    unfold State.tick
    rw [hmode]
    exact rfl
  rw [htick]
  exact hiff

/-- C4 witness: instantiated at a fresh `Playing` state (a restarted game). -/
theorem C4_end_transition_witness :
    ((State.new 25).restart 30).mode = GameMode.Playing ∧
    (((((State.new 25).restart 30).tick 10 none 20).mode = GameMode.End ↔
       (f32toI32 ((((State.new 25).restart 30).playPhysics 10).playInput none).player.y
           > SCREEN_HEIGHT ∨
        (((((State.new 25).restart 30).playPhysics 10).playInput none).playScore 20).obstacle.hit_obstacle
          ((((State.new 25).restart 30).playPhysics 10).playInput none).player = true)) ∧
     ((((State.new 25).restart 30).tick 10 none 20).mode = GameMode.Playing ↔
       ¬ (f32toI32 ((((State.new 25).restart 30).playPhysics 10).playInput none).player.y
             > SCREEN_HEIGHT ∨
          (((((State.new 25).restart 30).playPhysics 10).playInput none).playScore 20).obstacle.hit_obstacle
            ((((State.new 25).restart 30).playPhysics 10).playInput none).player = true))) :=
  ⟨rfl, C4_end_transition ((State.new 25).restart 30) 10 none 20 rfl⟩

/-- C5: in a `Playing` tick, exactly when the world-x of the post-step player is
strictly greater than the world-x of the obstacle, the score increments by `1` and
the obstacle is replaced by a fresh one at world-x `player.x + 80` built from
the incremented score — so with size `max 2 (20 - (score + 1))`; otherwise
the tick leaves score and obstacle unchanged. -/
theorem C5_score_advance (s : State) (elapsed : ℚ) (key : Option Key) (gap : Int) :
    ((s.play elapsed key gap).score =
       if ((s.playPhysics elapsed).playInput key).player.x > s.obstacle.x
       then s.score + 1 else s.score) ∧
    ((s.play elapsed key gap).obstacle =
       if ((s.playPhysics elapsed).playInput key).player.x > s.obstacle.x
       then Obstacle.new (((s.playPhysics elapsed).playInput key).player.x + SCREEN_WIDTH)
              (s.score + 1) gap
       else s.obstacle) ∧
    (Obstacle.new (((s.playPhysics elapsed).playInput key).player.x + SCREEN_WIDTH)
        (s.score + 1) gap).x
      = ((s.playPhysics elapsed).playInput key).player.x + 80 ∧
    (Obstacle.new (((s.playPhysics elapsed).playInput key).player.x + SCREEN_WIDTH)
        (s.score + 1) gap).size
      = max 2 (20 - (s.score + 1)) := by
  have hob : ((s.playPhysics elapsed).playInput key).obstacle = s.obstacle := by
    rw [playInput_obstacle, playPhysics_obstacle]
  have hsc : ((s.playPhysics elapsed).playInput key).score = s.score := by
    rw [playInput_score, playPhysics_score]
  have hplay : s.play elapsed key gap
      = (((s.playPhysics elapsed).playInput key).playScore gap).playEndCheck := rfl
  refine ⟨?_, ?_, rfl, rfl⟩
  · rw [hplay, playEndCheck_score]
    unfold State.playScore
    rw [hob, hsc]
    split
    · rfl
    · exact hsc
  · rw [hplay, playEndCheck_obstacle]
    unfold State.playScore
    rw [hob, hsc]
    split
    · rfl
    · exact hob

/-- C6: in a `Playing` tick, after the elapsed milliseconds are added to
`frame_time`, if the sum exceeds `FRAME_DURATION = 75.0` the accumulator is
reset to exactly `0` (not below, with no carry-over of the excess) and
exactly one `gravity_and_move` step runs; if the sum does not exceed `75.0`,
the accumulator keeps the sum and no physics step runs that tick. -/
theorem C6_frame_accumulator (s : State) (elapsed : ℚ) (key : Option Key) (gap : Int) :
    ((s.play elapsed key gap).frame_time =
       if s.frame_time + elapsed > FRAME_DURATION then 0 else s.frame_time + elapsed) ∧
    ((s.playPhysics elapsed).player =
       if s.frame_time + elapsed > FRAME_DURATION then s.player.gravity_and_move
       else s.player) := by
  have hplay : s.play elapsed key gap
      = (((s.playPhysics elapsed).playInput key).playScore gap).playEndCheck := rfl
  constructor
  · rw [hplay, playEndCheck_frame_time, playScore_frame_time, playInput_frame_time]
    unfold State.playPhysics
    simp only
    split <;> rfl
  · unfold State.playPhysics
    simp only
    split <;> rfl

end FlappyDragon
